import Mathlib

/-!
Verification development for the Location Bridge & Map-State Reconciliation
subsystem of the timedealing-app repository.

The subsystem lives in two source files:

* `app/index.tsx` — the JavaScript injected into the WebView.  It installs an
  interceptor around the Naver Maps constructor so that every map widget's
  `setCenter` method is policy-checked, keeps the authoritative saved center in
  `window.__savedMapCenter`, tracks `window.__isFirstMapLoad`, and runs a
  1000 ms monitoring loop that restores the saved center whenever a widget has
  drifted back to the hard-coded default Seoul coordinates.

* `web/gps-receiver.js` — the GPS receiver running in the page.  Its
  `handleLocationUpdate` validates and stores incoming location samples in
  `window.__gpsState.lastLocation` and calls `updateMapCenter`, which re-centers
  the visible map when the new sample is more than 50 meters (haversine) away
  from the currently displayed center.

Numbers are modelled as exact rationals (the JavaScript sources compare
coordinates against exact decimal literals with a fixed epsilon); the haversine
distance of `gps-receiver.js` is modelled over the reals since it uses
transcendental functions.  Calls that cross the boundary to the third-party
widget are recorded in an event trace.
-/

namespace TimeDealing

/-! ### Constants from the injected script (app/index.tsx, lines 884-885, 1025) -/

def DEFAULT_SEOUL_LAT : ℚ := 37.566826

def DEFAULT_SEOUL_LNG : ℚ := 126.9786567

/-- The epsilon `0.00001` used for all coordinate comparisons in the script. -/
def centerEps : ℚ := 1 / 100000

/-- `|a - b| < 0.00001`, the script's tolerance test for one coordinate. -/
def near (a b : ℚ) : Prop := |a - b| < centerEps

instance (a b : ℚ) : Decidable (near a b) :=
  inferInstanceAs (Decidable (|a - b| < centerEps))

/-- `isDefaultCoords` of the wrapped `setCenter` (index.tsx line 1025):
both coordinates within epsilon of the default Seoul center. -/
def isDefaultCoords (lat lng : ℚ) : Prop :=
  near lat DEFAULT_SEOUL_LAT ∧ near lng DEFAULT_SEOUL_LNG

instance (lat lng : ℚ) : Decidable (isDefaultCoords lat lng) :=
  inferInstanceAs (Decidable (_ ∧ _))

/-! ### The argument object passed to `setCenter`

The wrapped method extracts coordinates from `latlng?.lat`, falling back to
`latlng?.y` (resp. `latlng?.lng` / `latlng?.x`); a missing field is `none` and
the whole argument may itself be null (`Option LatLngArg`). -/

structure LatLngArg where
  latF : Option ℚ
  yF : Option ℚ
  lngF : Option ℚ
  xF : Option ℚ
  deriving DecidableEq

/-- `latlng?.lat !== undefined ? latlng.lat : (latlng?.y !== undefined ? latlng.y : null)`
(index.tsx line 1017). -/
def getLatOf : Option LatLngArg → Option ℚ
  | none => none
  | some o =>
    match o.latF with
    | some v => some v
    | none => o.yF

/-- `latlng?.lng !== undefined ? latlng.lng : (latlng?.x !== undefined ? latlng.x : null)`
(index.tsx line 1018). -/
def getLngOf : Option LatLngArg → Option ℚ
  | none => none
  | some o =>
    match o.lngF with
    | some v => some v
    | none => o.xF

/-- `new naver.maps.LatLng(lat, lng)`: a fully populated coordinate object
(`y` is the latitude and `x` the longitude in the Naver data model). -/
def mkLatLng (lat lng : ℚ) : LatLngArg :=
  ⟨some lat, some lat, some lng, some lng⟩

/-- The `{lat, lng}` pairs stored in `window.__savedMapCenter`. -/
structure Coords where
  lat : ℚ
  lng : ℚ
  deriving DecidableEq

/-! ### Page state of the injected script -/

/-- One live map widget: its currently displayed center (the last argument that
reached the library's own `setCenter`, or a center mutated behind the API's
back) and whether it was created through the intercepted constructor. -/
structure Widget where
  displayed : Option LatLngArg
  wrapped : Bool
  deriving DecidableEq

/-- Calls that cross into the third-party widget: an invocation of some
widget's (wrapped) `setCenter` method, and an invocation of the captured
original `setCenter` entry point. -/
inductive MapEvent where
  | wrappedCall (w : Nat) (arg : Option LatLngArg)
  | origCall (w : Nat) (arg : Option LatLngArg)
  deriving DecidableEq

/-- The mutable globals of the injected script plus the live widgets.
`savedMapCenter` is `window.__savedMapCenter`, `isFirstMapLoad` is
`window.__isFirstMapLoad`; note the first-load flag is a single global shared
by every widget (index.tsx line 892). -/
structure PageState where
  savedMapCenter : Option Coords
  isFirstMapLoad : Bool
  widgets : List Widget
  trace : List MapEvent
  deriving DecidableEq

/-- State right after the injected script initializes (index.tsx lines 889-892). -/
def initPage : PageState :=
  { savedMapCenter := none, isFirstMapLoad := true, widgets := [], trace := [] }

/-- Replace the widget at index `w` (no-op when out of range). -/
def updateWidget : List Widget → Nat → (Widget → Widget) → List Widget
  | [], _, _ => []
  | x :: xs, 0, f => f x :: xs
  | x :: xs, n + 1, f => x :: updateWidget xs n f

/-- The captured `originalSetCenter` of widget `w`: mutates the displayed
center and is recorded in the trace (index.tsx line 1014). -/
def origSetCenter (s : PageState) (w : Nat) (arg : Option LatLngArg) : PageState :=
  { s with
    widgets := updateWidget s.widgets w (fun wid => { wid with displayed := arg }),
    trace := MapEvent.origCall w arg :: s.trace }

/-- The policy-checked `setCenter` installed on every widget created through
the intercepted constructor (index.tsx lines 1016-1066):

1. coordinates that cannot be extracted are passed through to the original
   entry point unchanged ("invalid coordinates, allowing", lines 1020-1023);
2. while `window.__isFirstMapLoad` is set the call is passed through, the flag
   is cleared, and non-default coordinates are saved (lines 1033-1044);
3. afterwards, a default-coordinate call with a non-empty saved center is
   blocked and the original entry point is invoked with the saved coordinates
   instead (lines 1047-1051);
4. a default-coordinate call with an empty saved center is blocked outright
   (lines 1054-1057);
5. any other call updates the saved center and is passed through
   (lines 1060-1065). -/
def wrappedSetCenter (s : PageState) (w : Nat) (arg : Option LatLngArg) : PageState :=
  let s0 : PageState := { s with trace := MapEvent.wrappedCall w arg :: s.trace }
  match getLatOf arg, getLngOf arg with
  | some lat, some lng =>
    if s0.isFirstMapLoad then
      origSetCenter
        { s0 with
          isFirstMapLoad := false,
          savedMapCenter :=
            if isDefaultCoords lat lng then s0.savedMapCenter else some ⟨lat, lng⟩ }
        w arg
    else
      match s0.savedMapCenter with
      | some c =>
        if isDefaultCoords lat lng then
          origSetCenter s0 w (some (mkLatLng c.lat c.lng))
        else
          origSetCenter { s0 with savedMapCenter := some ⟨lat, lng⟩ } w arg
      | none =>
        if isDefaultCoords lat lng then s0
        else
          origSetCenter { s0 with savedMapCenter := some ⟨lat, lng⟩ } w arg
  | _, _ => origSetCenter s0 w arg

/-! ### The 1000 ms monitoring loop (index.tsx lines 1101-1132)

Each tick bails out when the saved center is empty, then visits every live
widget: it reads the displayed center, extracts `lat`/`lng` with JavaScript's
truthy `||` (so a missing *or zero* field falls through), skips falsy values,
and when the widget sits at the default Seoul coordinates but not at the saved
center it calls the widget's `setCenter` method with the saved coordinates —
the wrapped method for widgets built by the intercepted constructor, the plain
library method otherwise. -/

/-- JavaScript `a || b` on optionally-present numbers: `a` unless it is absent
or `0` (falsy). -/
def jsOrQ : Option ℚ → Option ℚ → Option ℚ
  | some v, b => if v = 0 then b else some v
  | none, b => b

/-- The `if (!lat || ...) return` guard: keep only a present, nonzero number. -/
def truthyQ : Option ℚ → Option ℚ
  | some v => if v = 0 then none else some v
  | none => none

/-- `currentCenter.lat || currentCenter.y`, then the falsy guard (lines 1116, 1119). -/
def monGetLat (cc : LatLngArg) : Option ℚ := truthyQ (jsOrQ cc.latF cc.yF)

/-- `currentCenter.lng || currentCenter.x`, then the falsy guard (lines 1117, 1119). -/
def monGetLng (cc : LatLngArg) : Option ℚ := truthyQ (jsOrQ cc.lngF cc.xF)

/-- `mapInstance.setCenter(...)` as called by the monitor (line 1126): this is
the widget's *current* `setCenter` method, i.e. the policy-checked wrapper for
widgets created through the intercepted constructor and the plain library
method for widgets created before interception. -/
def callSetCenter (s : PageState) (w : Nat) (arg : Option LatLngArg) : PageState :=
  match s.widgets[w]? with
  | none => s
  | some wid => if wid.wrapped then wrappedSetCenter s w arg else origSetCenter s w arg

/-- Process a single widget inside the monitoring tick (lines 1108-1128). -/
def monitorWidget (s : PageState) (w : Nat) : PageState :=
  match s.widgets[w]? with
  | none => s
  | some wid =>
    match wid.displayed with
    | none => s
    | some cc =>
      match monGetLat cc, monGetLng cc with
      | some lat, some lng =>
        match s.savedMapCenter with
        | none => s
        | some c =>
          if isDefaultCoords lat lng ∧ ¬(near lat c.lat ∧ near lng c.lng) then
            callSetCenter s w (some (mkLatLng c.lat c.lng))
          else s
      | _, _ => s

/-- One execution of the monitoring interval callback: the empty-store guard
(line 1103), then the loop over all live widgets. -/
def monitorTick (s : PageState) : PageState :=
  match s.savedMapCenter with
  | none => s
  | some _ => (List.range s.widgets.length).foldl monitorWidget s

/-- A new widget handle becomes live (its container registered): `wr` records
whether it went through the intercepted constructor. -/
def addWidget (s : PageState) (wr : Bool) (d : Option LatLngArg) : PageState :=
  { s with widgets := s.widgets ++ [⟨d, wr⟩] }

/-! ### Reachable page states

The events that can touch the injected script's state: a call to some wrapped
widget's `setCenter`, a direct invocation of a widget's original
center-mutation entry point (an unwrapped widget's `setCenter`, or third-party
code mutating the center behind the API's back), a monitoring tick, and the
creation of a widget.  `window.__savedMapCenter` is written nowhere else in
the source. -/

inductive PageStep : PageState → PageState → Prop
  | wrapped (s : PageState) (w : Nat) (arg : Option LatLngArg) :
      PageStep s (wrappedSetCenter s w arg)
  | orig (s : PageState) (w : Nat) (arg : Option LatLngArg) :
      PageStep s (origSetCenter s w arg)
  | tick (s : PageState) : PageStep s (monitorTick s)
  | create (s : PageState) (wr : Bool) (d : Option LatLngArg) :
      PageStep s (addWidget s wr d)

/-- States the injected script can reach from initialization. -/
def PageReachable (s : PageState) : Prop :=
  Relation.ReflTransGen PageStep initPage s

/-! ### The GPS receiver (web/gps-receiver.js)

`handleLocationUpdate` validates the received sample (only `latitude` is
checked to be a number), stores it in `window.__gpsState`, and calls
`updateMapCenter`, which re-centers the page's map only when auto-follow is
not disabled and the sample is more than 50 meters (haversine) from the
currently displayed center.  The haversine formula uses transcendental
functions, so the distance is modelled over the reals and the two functions
that branch on it are necessarily noncomputable. -/

/-- A location sample as delivered to the receiver.  A coordinate field is
`none` when it is absent or not a number (the receiver checks
`typeof locationData.latitude !== 'number'` for the latitude only). -/
structure LocationData where
  latitude : Option ℚ
  longitude : Option ℚ
  heading : Option ℚ
  accuracy : Option ℚ
  timestamp : ℤ
  deriving DecidableEq

/-- Observable actions of the receiver: an invocation of `updateMapCenter`
and an actual `map.setCenter` call. -/
inductive GpsEvent where
  | mapUpdatePass
  | setCenterCall (lat lng : ℚ)
  deriving DecidableEq

/-- `window.__gpsState` plus the page environment `updateMapCenter` reads:
whether Naver Maps and a registered map container are present, whether the map
object exposes `getCenter`, the auto-follow switch
(`window.__autoFollowLocation !== false`), and the map's displayed center. -/
structure GpsState where
  isTracking : Bool
  lastLocation : Option LocationData
  updateCount : Nat
  mapPresent : Bool
  hasGetCenter : Bool
  autoFollow : Bool
  mapCenter : Coords
  trace : List GpsEvent
  deriving DecidableEq

open Classical in
/-- JavaScript `Math.atan2 y x`. -/
noncomputable def atan2 (y x : ℝ) : ℝ :=
  if 0 < x then Real.arctan (y / x)
  else if x = 0 then
    if 0 < y then Real.pi / 2 else if y < 0 then -(Real.pi / 2) else 0
  else if 0 ≤ y then Real.arctan (y / x) + Real.pi
  else Real.arctan (y / x) - Real.pi

/-- The haversine distance of gps-receiver.js lines 244-253, in meters. -/
noncomputable def calculateDistance (lat1 lng1 lat2 lng2 : ℚ) : ℝ :=
  let R : ℝ := 6371000
  let dLat : ℝ := ((lat2 : ℝ) - (lat1 : ℝ)) * Real.pi / 180
  let dLng : ℝ := ((lng2 : ℝ) - (lng1 : ℝ)) * Real.pi / 180
  let a : ℝ :=
    Real.sin (dLat / 2) * Real.sin (dLat / 2) +
      Real.cos ((lat1 : ℝ) * Real.pi / 180) * Real.cos ((lat2 : ℝ) * Real.pi / 180) *
        Real.sin (dLng / 2) * Real.sin (dLng / 2)
  let c : ℝ := 2 * atan2 (Real.sqrt a) (Real.sqrt (1 - a))
  R * c

open Classical in
/-- `updateMapCenter` (gps-receiver.js lines 172-210).  The invocation itself
is recorded in the trace; the map is re-centered only when the map is present,
auto-follow is not disabled, `getCenter` exists, and the sample is more than
50 meters from the current center.  The fallback branch for a missing
coordinate is kept for totality only: the handler that calls this function
aborts earlier (on its own log line) whenever the longitude is not a number,
so this function is only ever reached with both coordinates numeric. -/
noncomputable def updateMapCenter (s : GpsState) (d : LocationData) : GpsState :=
  let s0 : GpsState := { s with trace := GpsEvent.mapUpdatePass :: s.trace }
  if s.mapPresent then
    if s.autoFollow then
      if s.hasGetCenter then
        match d.latitude, d.longitude with
        | some lat, some lng =>
          if 50 < calculateDistance s.mapCenter.lat s.mapCenter.lng lat lng then
            { s0 with
              mapCenter := ⟨lat, lng⟩,
              trace := GpsEvent.setCenterCall lat lng :: s0.trace }
          else s0
        | _, _ => s0
      else s0
    else s0
  else s0

/-- `handleLocationUpdate` (gps-receiver.js lines 77-114).  The sample is
dropped when it is null or its latitude is not a number; otherwise the store
is replaced unconditionally (lines 85-87) — the handler performs no timestamp
comparison.  The log call right after the store writes evaluates
`locationData.longitude.toFixed(4)` (line 92): when the longitude is absent
or not a number this throws a TypeError, which propagates to the message
listener's catch, so the handler aborts after the store writes and
`updateMapCenter` (line 110) is never reached.  With a numeric longitude the
handler continues and `updateMapCenter` runs.  The page-supplied
`onGPSUpdate` hook, the registered listeners and the DOM status display touch
no state modelled here. -/
noncomputable def handleLocationUpdate (s : GpsState) (d : Option LocationData) : GpsState :=
  match d with
  | none => s
  | some data =>
    match data.latitude with
    | none => s
    | some _ =>
      let s1 : GpsState :=
        { s with
          isTracking := true,
          lastLocation := some data,
          updateCount := s.updateCount + 1 }
      match data.longitude with
      | none => s1
      | some _ => updateMapCenter s1 data

/-! ### Disruption-triggered recheck hooks -/

/-- Boolean prefix test on character lists. -/
def isPrefixCB : List Char → List Char → Bool
  | [], _ => true
  | _ :: _, [] => false
  | a :: as, b :: bs => a == b && isPrefixCB as bs

/-- Boolean substring test on character lists. -/
def containsCB (n : List Char) : List Char → Bool
  | [] => isPrefixCB n []
  | c :: t => isPrefixCB n (c :: t) || containsCB n t

/-- Modelled from the spec: the wrappers around the page's `fetch` and
`XMLHttpRequest` request primitives are described in §4.6 of the spec and in
the repository's implementation notes, but the executable wrapper code is not
present under `src/` (only documentation describing it is).  Per those
descriptions, a target URL matches the heuristics when it contains one of the
`api` / `marker` / `category` keywords. -/
def urlTriggersRecheck (url : String) : Bool :=
  containsCB "api".toList url.toList || containsCB "marker".toList url.toList ||
    containsCB "category".toList url.toList

/-- Outcome of one wrapped outbound network call: whether the underlying
primitive was still invoked, and the delays (in ms) of the reconciliation
passes scheduled after the call settles. -/
structure NetCallResult where
  passedThrough : Bool
  scheduledRechecks : List Nat
  deriving DecidableEq

/-- Modelled from the spec: the wrapper installed on the modern fetch-style
request API.  The call is passed through; if the URL matches the keyword
heuristics, one reconciliation pass is scheduled 100 ms after it settles. -/
def wrapFetchCall (url : String) : NetCallResult :=
  ⟨true, if urlTriggersRecheck url then [100] else []⟩

/-- Modelled from the spec: the wrapper installed on the legacy request
object's `open`; same scheduling policy as the fetch-style wrapper. -/
def wrapXhrCall (url : String) : NetCallResult :=
  ⟨true, if urlTriggersRecheck url then [100] else []⟩

/-- The implicit invariant of the injected script: the saved center is never
(within epsilon) the default Seoul center. -/
def savedNotDefault (s : PageState) : Prop :=
  ∀ c, s.savedMapCenter = some c → ¬isDefaultCoords c.lat c.lng

/-! ### Helper lemmas: widget list surgery -/

theorem updateWidget_length (l : List Widget) (w : Nat) (f : Widget → Widget) :
    (updateWidget l w f).length = l.length := by
  induction l generalizing w with
  | nil => rfl
  | cons x xs ih =>
    cases w with
    | zero => rfl
    | succ n => simpa [updateWidget] using ih n

theorem get_updateWidget_self (l : List Widget) (w : Nat) (f : Widget → Widget) :
    (updateWidget l w f)[w]? = l[w]?.map f := by
  induction l generalizing w with
  | nil => rfl
  | cons x xs ih =>
    cases w with
    | zero => simp [updateWidget]
    | succ n => simpa [updateWidget] using ih n

theorem get_updateWidget_ne (l : List Widget) (w v : Nat) (f : Widget → Widget)
    (h : w ≠ v) : (updateWidget l w f)[v]? = l[v]? := by
  induction l generalizing w v with
  | nil => rfl
  | cons x xs ih =>
    cases w with
    | zero =>
      cases v with
      | zero => exact absurd rfl h
      | succ m => simp [updateWidget]
    | succ n =>
      cases v with
      | zero => simp [updateWidget]
      | succ m =>
        simpa [updateWidget] using ih n m (fun hh => h (by rw [hh]))

/-! ### Helper lemmas: the wrapped `setCenter` -/

theorem origSetCenter_saved (s : PageState) (w : Nat) (a : Option LatLngArg) :
    (origSetCenter s w a).savedMapCenter = s.savedMapCenter := rfl

theorem origSetCenter_first (s : PageState) (w : Nat) (a : Option LatLngArg) :
    (origSetCenter s w a).isFirstMapLoad = s.isFirstMapLoad := rfl

/-- Every write the wrapped `setCenter` performs on `window.__savedMapCenter`
happens in a branch where `isDefaultCoords` is false: the saved center is
either untouched or set to the (non-default) extracted coordinates. -/
theorem wrappedSetCenter_saved_cases (s : PageState) (w : Nat) (arg : Option LatLngArg) :
    (wrappedSetCenter s w arg).savedMapCenter = s.savedMapCenter ∨
      ∃ lat lng, getLatOf arg = some lat ∧ getLngOf arg = some lng ∧
        ¬isDefaultCoords lat lng ∧
        (wrappedSetCenter s w arg).savedMapCenter = some ⟨lat, lng⟩ := by
  rcases hx : getLatOf arg with _ | lat <;> rcases hy : getLngOf arg with _ | lng
  · left; simp [wrappedSetCenter, hx, hy, origSetCenter]
  · left; simp [wrappedSetCenter, hx, hy, origSetCenter]
  · left; simp [wrappedSetCenter, hx, hy, origSetCenter]
  · by_cases hf : s.isFirstMapLoad
    · by_cases hd : isDefaultCoords lat lng
      · left; simp [wrappedSetCenter, hx, hy, hf, hd, origSetCenter]
      · right
        exact ⟨lat, lng, rfl, rfl, hd, by simp [wrappedSetCenter, hx, hy, hf, hd, origSetCenter]⟩
    · rcases hs : s.savedMapCenter with _ | c
      · by_cases hd : isDefaultCoords lat lng
        · left; simp [wrappedSetCenter, hx, hy, hf, hs, hd]
        · right
          exact ⟨lat, lng, rfl, rfl, hd, by
            simp [wrappedSetCenter, hx, hy, hf, hs, hd, origSetCenter]⟩
      · by_cases hd : isDefaultCoords lat lng
        · left; simp [wrappedSetCenter, hx, hy, hf, hs, hd, origSetCenter]
        · right
          exact ⟨lat, lng, rfl, rfl, hd, by
            simp [wrappedSetCenter, hx, hy, hf, hs, hd, origSetCenter]⟩

theorem wrappedSetCenter_savedNotDefault (s : PageState) (w : Nat) (arg : Option LatLngArg)
    (h : savedNotDefault s) : savedNotDefault (wrappedSetCenter s w arg) := by
  rcases wrappedSetCenter_saved_cases s w arg with heq | ⟨lat, lng, _, _, hd, heq⟩
  · intro c hc
    exact h c (heq ▸ hc)
  · intro c hc
    rw [heq] at hc
    cases Option.some.inj hc
    exact hd

/-! ### Helper lemmas: restoring the saved center through a widget's `setCenter`

When the saved center holds `c` and a widget's `setCenter` is invoked with
`new naver.maps.LatLng(c.lat, c.lng)`, every branch of the wrapped method
forwards those very coordinates to the original entry point (the first-load
and non-default branches pass the argument through; the blocking branch
substitutes the saved center, which is again `c`), and the saved center keeps
the value `c`. -/

theorem wrappedSetCenter_restore (s : PageState) (w : Nat) (c : Coords)
    (hs : s.savedMapCenter = some c) :
    (wrappedSetCenter s w (some (mkLatLng c.lat c.lng))).savedMapCenter = some c ∧
      (wrappedSetCenter s w (some (mkLatLng c.lat c.lng))).widgets =
        updateWidget s.widgets w
          (fun wid => { wid with displayed := some (mkLatLng c.lat c.lng) }) ∧
      MapEvent.origCall w (some (mkLatLng c.lat c.lng)) ∈
        (wrappedSetCenter s w (some (mkLatLng c.lat c.lng))).trace ∧
      ∀ e ∈ s.trace, e ∈ (wrappedSetCenter s w (some (mkLatLng c.lat c.lng))).trace := by
  by_cases hf : s.isFirstMapLoad <;>
    by_cases hd : isDefaultCoords c.lat c.lng <;>
      simp [wrappedSetCenter, getLatOf, getLngOf, mkLatLng, origSetCenter, hs, hf, hd] <;>
        exact fun e he => Or.inr (Or.inr he)

theorem callSetCenter_restore (s : PageState) (w : Nat) (wid : Widget) (c : Coords)
    (hw : s.widgets[w]? = some wid) (hs : s.savedMapCenter = some c) :
    (callSetCenter s w (some (mkLatLng c.lat c.lng))).savedMapCenter = some c ∧
      (callSetCenter s w (some (mkLatLng c.lat c.lng))).widgets =
        updateWidget s.widgets w
          (fun wid => { wid with displayed := some (mkLatLng c.lat c.lng) }) ∧
      MapEvent.origCall w (some (mkLatLng c.lat c.lng)) ∈
        (callSetCenter s w (some (mkLatLng c.lat c.lng))).trace ∧
      ∀ e ∈ s.trace, e ∈ (callSetCenter s w (some (mkLatLng c.lat c.lng))).trace := by
  cases hb : wid.wrapped
  · have hc : callSetCenter s w (some (mkLatLng c.lat c.lng)) =
        origSetCenter s w (some (mkLatLng c.lat c.lng)) := by
      simp [callSetCenter, hw, hb]
    rw [hc]
    refine ⟨hs, rfl, ?_, fun e he => ?_⟩
    · exact List.mem_cons_self _ _
    · exact List.mem_cons_of_mem _ he
  · have hc : callSetCenter s w (some (mkLatLng c.lat c.lng)) =
        wrappedSetCenter s w (some (mkLatLng c.lat c.lng)) := by
      simp [callSetCenter, hw, hb]
    rw [hc]
    exact wrappedSetCenter_restore s w c hs

/-! ### Helper lemmas: one widget inside the monitoring tick -/

theorem monitorWidget_cases (s : PageState) (j : Nat) :
    monitorWidget s j = s ∨
      ∃ c wid, s.widgets[j]? = some wid ∧ s.savedMapCenter = some c ∧
        monitorWidget s j = callSetCenter s j (some (mkLatLng c.lat c.lng)) := by
  rcases hg : s.widgets[j]? with _ | wid
  · left; simp [monitorWidget, hg]
  · rcases hd : wid.displayed with _ | cc
    · left; simp [monitorWidget, hg, hd]
    · rcases h1 : monGetLat cc with _ | lat <;> rcases h2 : monGetLng cc with _ | lng
      · left; simp [monitorWidget, hg, hd, h1, h2]
      · left; simp [monitorWidget, hg, hd, h1, h2]
      · left; simp [monitorWidget, hg, hd, h1, h2]
      · rcases hs : s.savedMapCenter with _ | c
        · left; simp [monitorWidget, hg, hd, h1, h2, hs]
        · by_cases hcond : isDefaultCoords lat lng ∧ ¬(near lat c.lat ∧ near lng c.lng)
          · right
            refine ⟨c, wid, rfl, rfl, ?_⟩
            simp [monitorWidget, hg, hd, h1, h2, hs, hcond]
          · left
            simp only [monitorWidget, hg, hd, h1, h2, hs]
            exact if_neg hcond

theorem monitorWidget_saved (s : PageState) (j : Nat) :
    (monitorWidget s j).savedMapCenter = s.savedMapCenter := by
  rcases monitorWidget_cases s j with h | ⟨c, wid, hw, hs, h⟩
  · rw [h]
  · rw [h, (callSetCenter_restore s j wid c hw hs).1, hs]

theorem monitorWidget_get_ne (s : PageState) (j v : Nat) (h : j ≠ v) :
    (monitorWidget s j).widgets[v]? = s.widgets[v]? := by
  rcases monitorWidget_cases s j with heq | ⟨c, wid, hw, hs, heq⟩
  · rw [heq]
  · rw [heq, (callSetCenter_restore s j wid c hw hs).2.1, get_updateWidget_ne _ _ _ _ h]

theorem monitorWidget_length (s : PageState) (j : Nat) :
    (monitorWidget s j).widgets.length = s.widgets.length := by
  rcases monitorWidget_cases s j with heq | ⟨c, wid, hw, hs, heq⟩
  · rw [heq]
  · rw [heq, (callSetCenter_restore s j wid c hw hs).2.1, updateWidget_length]

theorem monitorWidget_trace_mono (s : PageState) (j : Nat) (e : MapEvent)
    (he : e ∈ s.trace) : e ∈ (monitorWidget s j).trace := by
  rcases monitorWidget_cases s j with heq | ⟨c, wid, hw, hs, heq⟩
  · rw [heq]; exact he
  · rw [heq]; exact (callSetCenter_restore s j wid c hw hs).2.2.2 e he

theorem monitorWidget_restore (s : PageState) (w : Nat) (wid : Widget) (cc : LatLngArg)
    (lat lng : ℚ) (c : Coords)
    (hw : s.widgets[w]? = some wid) (hd : wid.displayed = some cc)
    (h1 : monGetLat cc = some lat) (h2 : monGetLng cc = some lng)
    (hs : s.savedMapCenter = some c)
    (hdef : isDefaultCoords lat lng) (hns : ¬(near lat c.lat ∧ near lng c.lng)) :
    (monitorWidget s w).widgets[w]? =
        some { wid with displayed := some (mkLatLng c.lat c.lng) } ∧
      MapEvent.origCall w (some (mkLatLng c.lat c.lng)) ∈ (monitorWidget s w).trace := by
  have hm : monitorWidget s w = callSetCenter s w (some (mkLatLng c.lat c.lng)) := by
    simp only [monitorWidget, hw, hd, h1, h2, hs]
    exact if_pos ⟨hdef, hns⟩
  obtain ⟨-, h2', h3', -⟩ := callSetCenter_restore s w wid c hw hs
  constructor
  · rw [hm, h2', get_updateWidget_self, hw]
    rfl
  · rw [hm]
    exact h3'

/-! ### Helper lemmas: the whole monitoring tick -/

/-- Folding the per-widget monitor over indices different from `w` leaves the
saved center, widget `w`, the widget count and the existing trace intact. -/
theorem foldl_monitor_preserve (l : List Nat) (s : PageState) (w : Nat)
    (hl : ∀ j ∈ l, j ≠ w) :
    (l.foldl monitorWidget s).savedMapCenter = s.savedMapCenter ∧
      (l.foldl monitorWidget s).widgets[w]? = s.widgets[w]? ∧
      (l.foldl monitorWidget s).widgets.length = s.widgets.length ∧
      ∀ e ∈ s.trace, e ∈ (l.foldl monitorWidget s).trace := by
  induction l generalizing s with
  | nil => exact ⟨rfl, rfl, rfl, fun e he => he⟩
  | cons j t ih =>
    have hj : j ≠ w := hl j (List.mem_cons_self j t)
    have ht : ∀ x ∈ t, x ≠ w := fun x hx => hl x (List.mem_cons_of_mem j hx)
    obtain ⟨a1, a2, a3, a4⟩ := ih (monitorWidget s j) ht
    refine ⟨?_, ?_, ?_, ?_⟩
    · rw [List.foldl_cons, a1, monitorWidget_saved]
    · rw [List.foldl_cons, a2, monitorWidget_get_ne s j w hj]
    · rw [List.foldl_cons, a3, monitorWidget_length]
    · intro e he
      rw [List.foldl_cons]
      exact a4 e (monitorWidget_trace_mono s j e he)

/-- Folding the per-widget monitor over `range n` restores widget `w < n`
when it sits at the default center but not at the saved one. -/
theorem foldl_range_restores (n : Nat) (s : PageState) (w : Nat) (wid : Widget)
    (cc : LatLngArg) (lat lng : ℚ) (c : Coords)
    (hw : s.widgets[w]? = some wid) (hd : wid.displayed = some cc)
    (h1 : monGetLat cc = some lat) (h2 : monGetLng cc = some lng)
    (hs : s.savedMapCenter = some c)
    (hdef : isDefaultCoords lat lng) (hns : ¬(near lat c.lat ∧ near lng c.lng))
    (hwn : w < n) :
    ((List.range n).foldl monitorWidget s).widgets[w]? =
        some { wid with displayed := some (mkLatLng c.lat c.lng) } ∧
      MapEvent.origCall w (some (mkLatLng c.lat c.lng)) ∈
        ((List.range n).foldl monitorWidget s).trace := by
  induction n generalizing s with
  | zero => exact absurd hwn (Nat.not_lt_zero w)
  | succ n ih =>
    rw [List.range_succ, List.foldl_append, List.foldl_cons, List.foldl_nil]
    rcases Nat.lt_or_ge w n with hlt | hge
    · obtain ⟨b1, b2⟩ := ih s hw hs hlt
      constructor
      · rw [monitorWidget_get_ne _ n w (Nat.ne_of_gt hlt)]
        · exact b1
      · exact monitorWidget_trace_mono _ n _ b2
    · have hwe : w = n := Nat.le_antisymm (Nat.lt_succ_iff.mp hwn) hge
      subst hwe
      have hne : ∀ j ∈ List.range w, j ≠ w := fun j hj =>
        Nat.ne_of_lt (List.mem_range.mp hj)
      obtain ⟨a1, a2, a3, a4⟩ := foldl_monitor_preserve (List.range w) s w hne
      have hw2 : ((List.range w).foldl monitorWidget s).widgets[w]? = some wid := by
        rw [a2]; exact hw
      have hs2 : ((List.range w).foldl monitorWidget s).savedMapCenter = some c := by
        rw [a1]; exact hs
      exact monitorWidget_restore _ w wid cc lat lng c hw2 hd h1 h2 hs2 hdef hns

/-! ### Helper lemmas: the GPS receiver -/

/-- `updateMapCenter` either only logs its invocation, or — when the map is
present, auto-follow is on, `getCenter` exists, both coordinates are numbers
and the sample is more than 50 meters away — re-centers the map. -/
theorem updateMapCenter_cases (s : GpsState) (d : LocationData) :
    updateMapCenter s d = { s with trace := GpsEvent.mapUpdatePass :: s.trace } ∨
      ∃ lat lng, d.latitude = some lat ∧ d.longitude = some lng ∧
        s.mapPresent = true ∧ s.autoFollow = true ∧ s.hasGetCenter = true ∧
        50 < calculateDistance s.mapCenter.lat s.mapCenter.lng lat lng ∧
        updateMapCenter s d =
          { s with
            mapCenter := ⟨lat, lng⟩,
            trace := GpsEvent.setCenterCall lat lng :: GpsEvent.mapUpdatePass :: s.trace } := by
  by_cases h1 : s.mapPresent
  · by_cases h2 : s.autoFollow
    · by_cases h3 : s.hasGetCenter
      · rcases hla : d.latitude with _ | lat
        · left; simp [updateMapCenter, h1, h2, h3, hla]
        · rcases hlo : d.longitude with _ | lng
          · left; simp [updateMapCenter, h1, h2, h3, hla, hlo]
          · by_cases hdist : 50 < calculateDistance s.mapCenter.lat s.mapCenter.lng lat lng
            · right
              exact ⟨lat, lng, rfl, rfl, h1, h2, h3, hdist, by
                simp [updateMapCenter, h1, h2, h3, hla, hlo, hdist]⟩
            · left; simp [updateMapCenter, h1, h2, h3, hla, hlo, hdist]
      · left; simp [updateMapCenter, h1, h2, h3]
    · left; simp [updateMapCenter, h1, h2]
  · left; simp [updateMapCenter, h1]

theorem updateMapCenter_preserves (s : GpsState) (d : LocationData) :
    (updateMapCenter s d).lastLocation = s.lastLocation ∧
      (updateMapCenter s d).updateCount = s.updateCount ∧
      (updateMapCenter s d).isTracking = s.isTracking := by
  rcases updateMapCenter_cases s d with h | ⟨lat, lng, _, _, _, _, _, _, h⟩ <;>
    rw [h] <;> exact ⟨rfl, rfl, rfl⟩

/-- Shape of the state after a successfully validated sample: the store
writes at lines 85-87 happen whether or not the handler survives its log
line. -/
theorem handleLocationUpdate_stores (g : GpsState) (d : LocationData) (lat : ℚ)
    (hlat : d.latitude = some lat) :
    (handleLocationUpdate g (some d)).lastLocation = some d ∧
      (handleLocationUpdate g (some d)).updateCount = g.updateCount + 1 ∧
      (handleLocationUpdate g (some d)).isTracking = true := by
  rcases hlo : d.longitude with _ | lng
  · have hform : handleLocationUpdate g (some d) =
        { g with
          isTracking := true,
          lastLocation := some d,
          updateCount := g.updateCount + 1 } := by
      simp [handleLocationUpdate, hlat, hlo]
    rw [hform]
    exact ⟨rfl, rfl, rfl⟩
  · have hform : handleLocationUpdate g (some d) =
        updateMapCenter
          { g with
            isTracking := true,
            lastLocation := some d,
            updateCount := g.updateCount + 1 }
          d := by
      simp [handleLocationUpdate, hlat, hlo]
    obtain ⟨p1, p2, p3⟩ := updateMapCenter_preserves
      { g with
        isTracking := true,
        lastLocation := some d,
        updateCount := g.updateCount + 1 } d
    rw [hform, p1, p2, p3]
    exact ⟨rfl, rfl, rfl⟩

/-! ### Real-analysis facts about the haversine distance -/

theorem arctan_le_self (t : ℝ) (ht : 0 ≤ t) : Real.arctan t ≤ t := by
  have h0 : 0 ≤ Real.arctan t := by
    have hm := Real.arctan_strictMono.monotone ht
    simpa [Real.arctan_zero] using hm
  have h2 : Real.arctan t < Real.pi / 2 := Real.arctan_lt_pi_div_two t
  have h3 := Real.le_tan h0 h2
  rwa [Real.tan_arctan] at h3

/-- The angular part of the haversine formula is at most `2 * b` whenever the
`a` term is at most `b ^ 2` (for small `b`). -/
theorem atan2_sqrt_le (A b : ℝ) (hb0 : 0 ≤ b) (hb2 : b ≤ 1 / 2) (hA : A ≤ b ^ 2) :
    atan2 (Real.sqrt A) (Real.sqrt (1 - A)) ≤ 2 * b := by
  have hA34 : A ≤ 3 / 4 := by nlinarith
  have hden : (1 / 2 : ℝ) ≤ Real.sqrt (1 - A) := by
    apply Real.le_sqrt_of_sq_le
    nlinarith
  have hpos : 0 < Real.sqrt (1 - A) := lt_of_lt_of_le (by norm_num) hden
  have hnum : Real.sqrt A ≤ b := by
    calc Real.sqrt A ≤ Real.sqrt (b ^ 2) := Real.sqrt_le_sqrt hA
      _ = b := Real.sqrt_sq hb0
  have harg0 : 0 ≤ Real.sqrt A / Real.sqrt (1 - A) :=
    div_nonneg (Real.sqrt_nonneg A) hpos.le
  have harg : Real.sqrt A / Real.sqrt (1 - A) ≤ 2 * b := by
    have hq : Real.sqrt A / Real.sqrt (1 - A) ≤ b / (1 / 2) :=
      div_le_div₀ hb0 hnum (by norm_num) hden
    have hbb : b / (1 / 2 : ℝ) = 2 * b := by ring
    rwa [hbb] at hq
  have hif : atan2 (Real.sqrt A) (Real.sqrt (1 - A)) =
      Real.arctan (Real.sqrt A / Real.sqrt (1 - A)) := by
    unfold atan2
    rw [if_pos hpos]
  rw [hif]
  exact le_trans (arctan_le_self _ harg0) harg

/-- For two points on the same latitude whose (radian) half-difference of
longitudes is bounded by `b ≤ 1/2`, the haversine distance is at most
`6371000 * (4 * b)` meters. -/
theorem calculateDistance_le_same_lat (lat lng1 lng2 : ℚ) (b : ℝ)
    (hb0 : 0 ≤ b) (hb2 : b ≤ 1 / 2)
    (hx : |((lng2 : ℝ) - (lng1 : ℝ)) * Real.pi / 180 / 2| ≤ b) :
    calculateDistance lat lng1 lat lng2 ≤ 6371000 * (4 * b) := by
  have e0 : ((lat : ℝ) - (lat : ℝ)) * Real.pi / 180 / 2 = 0 := by ring
  simp only [calculateDistance, e0, Real.sin_zero, mul_zero, zero_mul, zero_add]
  have hcos : Real.cos ((lat : ℝ) * Real.pi / 180) * Real.cos ((lat : ℝ) * Real.pi / 180) ≤ 1 := by
    nlinarith [Real.cos_le_one ((lat : ℝ) * Real.pi / 180),
      Real.neg_one_le_cos ((lat : ℝ) * Real.pi / 180)]
  have hsin : Real.sin (((lng2 : ℝ) - (lng1 : ℝ)) * Real.pi / 180 / 2) *
      Real.sin (((lng2 : ℝ) - (lng1 : ℝ)) * Real.pi / 180 / 2) ≤ b * b := by
    have h1 : |Real.sin (((lng2 : ℝ) - (lng1 : ℝ)) * Real.pi / 180 / 2)| ≤
        |((lng2 : ℝ) - (lng1 : ℝ)) * Real.pi / 180 / 2| := Real.abs_sin_le_abs
    calc Real.sin (((lng2 : ℝ) - (lng1 : ℝ)) * Real.pi / 180 / 2) *
          Real.sin (((lng2 : ℝ) - (lng1 : ℝ)) * Real.pi / 180 / 2)
        = |Real.sin (((lng2 : ℝ) - (lng1 : ℝ)) * Real.pi / 180 / 2)| *
          |Real.sin (((lng2 : ℝ) - (lng1 : ℝ)) * Real.pi / 180 / 2)| :=
          (abs_mul_abs_self _).symm
      _ ≤ |((lng2 : ℝ) - (lng1 : ℝ)) * Real.pi / 180 / 2| *
          |((lng2 : ℝ) - (lng1 : ℝ)) * Real.pi / 180 / 2| :=
          mul_le_mul h1 h1 (abs_nonneg _) (abs_nonneg _)
      _ ≤ b * b := mul_le_mul hx hx (abs_nonneg _) hb0
  have hA : Real.cos ((lat : ℝ) * Real.pi / 180) * Real.cos ((lat : ℝ) * Real.pi / 180) *
      Real.sin (((lng2 : ℝ) - (lng1 : ℝ)) * Real.pi / 180 / 2) *
      Real.sin (((lng2 : ℝ) - (lng1 : ℝ)) * Real.pi / 180 / 2) ≤ b ^ 2 := by
    nlinarith [hcos, hsin,
      mul_self_nonneg (Real.sin (((lng2 : ℝ) - (lng1 : ℝ)) * Real.pi / 180 / 2))]
  have hatan := atan2_sqrt_le _ b hb0 hb2 hA
  nlinarith [hatan]

/-- The two concrete points used to refute the "regardless of how far" claim
are about 8.8 meters apart, well under the 50 meter threshold. -/
theorem calculateDistance_example_le :
    calculateDistance 37.5 127 37.5 127.0001 ≤ 50 := by
  have e : ((127.0001 : ℚ) : ℝ) - ((127 : ℚ) : ℝ) = 0.0001 := by norm_num
  have hx : |(((127.0001 : ℚ) : ℝ) - ((127 : ℚ) : ℝ)) * Real.pi / 180 / 2| ≤
      (1 / 900000 : ℝ) := by
    rw [e, abs_of_nonneg (by positivity)]
    nlinarith [Real.pi_le_four, Real.pi_pos]
  have h := calculateDistance_le_same_lat 37.5 127 127.0001 (1 / 900000)
    (by norm_num) (by norm_num) hx
  linarith

/-! ### Remaining tick lemmas -/

theorem foldl_monitor_saved (l : List Nat) (s : PageState) :
    (l.foldl monitorWidget s).savedMapCenter = s.savedMapCenter := by
  induction l generalizing s with
  | nil => rfl
  | cons j t ih => rw [List.foldl_cons, ih, monitorWidget_saved]

theorem monitorTick_saved (s : PageState) :
    (monitorTick s).savedMapCenter = s.savedMapCenter := by
  rcases hs : s.savedMapCenter with _ | c
  · simp [monitorTick, hs]
  · simp [monitorTick, hs, foldl_monitor_saved]

/-! ### The claims -/

/-- C1: Default blocking.  For a wrapped widget whose first center-set call
has been consumed and a non-empty saved center `(A, B)` not within epsilon of
the default, a center-set call with default coordinates does not pass the
requested coordinates to the widget; the original entry point is invoked with
`(A, B)` instead, the widget ends displaying `(A, B)`, and the store is
unchanged. -/
theorem C1_default_blocking (s : PageState) (w : Nat) (arg : Option LatLngArg)
    (A B lat lng : ℚ) (wid : Widget)
    (hfirst : s.isFirstMapLoad = false)
    (hsaved : s.savedMapCenter = some ⟨A, B⟩)
    (hAB : ¬isDefaultCoords A B)
    (hlat : getLatOf arg = some lat) (hlng : getLngOf arg = some lng)
    (hdef : isDefaultCoords lat lng)
    (hw : s.widgets[w]? = some wid) :
    (wrappedSetCenter s w arg).widgets[w]? =
        some { wid with displayed := some (mkLatLng A B) } ∧
      (wrappedSetCenter s w arg).trace =
        MapEvent.origCall w (some (mkLatLng A B)) ::
          MapEvent.wrappedCall w arg :: s.trace ∧
      (wrappedSetCenter s w arg).savedMapCenter = some ⟨A, B⟩ ∧
      (A, B) ≠ (lat, lng) := by
  have hred : wrappedSetCenter s w arg =
      origSetCenter { s with trace := MapEvent.wrappedCall w arg :: s.trace } w
        (some (mkLatLng A B)) := by
    simp [wrappedSetCenter, hlat, hlng, hfirst, hsaved, hdef]
  refine ⟨?_, ?_, ?_, ?_⟩
  · rw [hred]
    show (updateWidget s.widgets w _)[w]? = _
    rw [get_updateWidget_self, hw]
    rfl
  · rw [hred]; rfl
  · rw [hred, origSetCenter_saved]; exact hsaved
  · intro hpair
    rw [Prod.mk.injEq] at hpair
    exact hAB (hpair.1 ▸ hpair.2 ▸ hdef)

/-- Witness for C1 at a concrete store `(37.5, 127.0)` and the literal default
coordinates. -/
theorem C1_default_blocking_witness :
    ¬isDefaultCoords 37.5 127 ∧ isDefaultCoords 37.566826 126.9786567 ∧
      ((wrappedSetCenter ⟨some ⟨37.5, 127⟩, false, [⟨none, true⟩], []⟩ 0
            (some (mkLatLng 37.566826 126.9786567))).widgets[0]? =
          some ⟨some (mkLatLng 37.5 127), true⟩ ∧
        (wrappedSetCenter ⟨some ⟨37.5, 127⟩, false, [⟨none, true⟩], []⟩ 0
            (some (mkLatLng 37.566826 126.9786567))).trace =
          MapEvent.origCall 0 (some (mkLatLng 37.5 127)) ::
            MapEvent.wrappedCall 0 (some (mkLatLng 37.566826 126.9786567)) :: [] ∧
        (wrappedSetCenter ⟨some ⟨37.5, 127⟩, false, [⟨none, true⟩], []⟩ 0
            (some (mkLatLng 37.566826 126.9786567))).savedMapCenter =
          some ⟨37.5, 127⟩ ∧
        ((37.5 : ℚ), (127 : ℚ)) ≠ ((37.566826 : ℚ), (126.9786567 : ℚ))) :=
  ⟨by norm_num [isDefaultCoords, near, centerEps, DEFAULT_SEOUL_LAT, DEFAULT_SEOUL_LNG, abs_lt], by norm_num [isDefaultCoords, near, centerEps, DEFAULT_SEOUL_LAT, DEFAULT_SEOUL_LNG, abs_lt],
    C1_default_blocking ⟨some ⟨37.5, 127⟩, false, [⟨none, true⟩], []⟩ 0
      (some (mkLatLng 37.566826 126.9786567)) 37.5 127 37.566826 126.9786567
      ⟨none, true⟩ rfl rfl (by norm_num [isDefaultCoords, near, centerEps, DEFAULT_SEOUL_LAT, DEFAULT_SEOUL_LNG, abs_lt]) rfl rfl (by norm_num [isDefaultCoords, near, centerEps, DEFAULT_SEOUL_LAT, DEFAULT_SEOUL_LNG, abs_lt]) rfl⟩

/-- C3 as frozen is false: the first-call flag is the single global
`window.__isFirstMapLoad`, not per-widget state.  Concretely: widget 0 and
widget 1 are both created through the interceptor; widget 0's first call
(non-default `(37.5, 127)`) consumes the global flag; widget 1's very first
center-set call, with default coordinates, is then *not* applied verbatim —
it is blocked and substituted with the saved center, and no original-entry
call with the requested default argument ever happens. -/
theorem C3_counterexample :
    (wrappedSetCenter
        (wrappedSetCenter (addWidget (addWidget initPage true none) true none) 0
          (some (mkLatLng 37.5 127))) 1
        (some (mkLatLng 37.566826 126.9786567))).widgets[1]? =
        some ⟨some (mkLatLng 37.5 127), true⟩ ∧
      MapEvent.origCall 1 (some (mkLatLng 37.566826 126.9786567)) ∉
        (wrappedSetCenter
          (wrappedSetCenter (addWidget (addWidget initPage true none) true none) 0
            (some (mkLatLng 37.5 127))) 1
          (some (mkLatLng 37.566826 126.9786567))).trace ∧
      mkLatLng 37.5 127 ≠ mkLatLng 37.566826 126.9786567 := by
  have hnd : ¬isDefaultCoords 37.5 127 := by
    norm_num [isDefaultCoords, near, centerEps, DEFAULT_SEOUL_LAT, DEFAULT_SEOUL_LNG, abs_lt]
  have hdef : isDefaultCoords 37.566826 126.9786567 := by
    norm_num [isDefaultCoords, near, centerEps, DEFAULT_SEOUL_LAT, DEFAULT_SEOUL_LNG, abs_lt]
  have e3 : wrappedSetCenter (addWidget (addWidget initPage true none) true none) 0
      (some (mkLatLng 37.5 127)) =
      ⟨some ⟨37.5, 127⟩, false,
        [⟨some (mkLatLng 37.5 127), true⟩, ⟨none, true⟩],
        [MapEvent.origCall 0 (some (mkLatLng 37.5 127)),
          MapEvent.wrappedCall 0 (some (mkLatLng 37.5 127))]⟩ := by
    simp [wrappedSetCenter, initPage, addWidget, origSetCenter, updateWidget, hnd,
      getLatOf, getLngOf, mkLatLng]
  have e4 : wrappedSetCenter
      (⟨some ⟨37.5, 127⟩, false,
        [⟨some (mkLatLng 37.5 127), true⟩, ⟨none, true⟩],
        [MapEvent.origCall 0 (some (mkLatLng 37.5 127)),
          MapEvent.wrappedCall 0 (some (mkLatLng 37.5 127))]⟩ : PageState) 1
      (some (mkLatLng 37.566826 126.9786567)) =
      ⟨some ⟨37.5, 127⟩, false,
        [⟨some (mkLatLng 37.5 127), true⟩, ⟨some (mkLatLng 37.5 127), true⟩],
        [MapEvent.origCall 1 (some (mkLatLng 37.5 127)),
          MapEvent.wrappedCall 1 (some (mkLatLng 37.566826 126.9786567)),
          MapEvent.origCall 0 (some (mkLatLng 37.5 127)),
          MapEvent.wrappedCall 0 (some (mkLatLng 37.5 127))]⟩ := by
    simp [wrappedSetCenter, origSetCenter, updateWidget, hdef,
      getLatOf, getLngOf, mkLatLng]
  rw [e3, e4]
  refine ⟨rfl, ?_, ?_⟩
  · norm_num [mkLatLng]
    simp
  · norm_num [mkLatLng]

/-- C3 amended: the pass-through exception applies to the first extractable
center-set call *per page* — `window.__isFirstMapLoad` is one shared global —
and that call is applied verbatim regardless of coordinates, clears the flag,
and saves the coordinates exactly when they are not the default. -/
theorem C3_first_call_passthrough (s : PageState) (w : Nat) (arg : Option LatLngArg)
    (lat lng : ℚ) (wid : Widget)
    (hfirst : s.isFirstMapLoad = true)
    (hlat : getLatOf arg = some lat) (hlng : getLngOf arg = some lng)
    (hw : s.widgets[w]? = some wid) :
    (wrappedSetCenter s w arg).widgets[w]? = some { wid with displayed := arg } ∧
      (wrappedSetCenter s w arg).trace =
        MapEvent.origCall w arg :: MapEvent.wrappedCall w arg :: s.trace ∧
      (wrappedSetCenter s w arg).isFirstMapLoad = false ∧
      (wrappedSetCenter s w arg).savedMapCenter =
        (if isDefaultCoords lat lng then s.savedMapCenter else some ⟨lat, lng⟩) := by
  have hred : wrappedSetCenter s w arg =
      origSetCenter
        { s with
          trace := MapEvent.wrappedCall w arg :: s.trace,
          isFirstMapLoad := false,
          savedMapCenter :=
            if isDefaultCoords lat lng then s.savedMapCenter else some ⟨lat, lng⟩ }
        w arg := by
    by_cases hd : isDefaultCoords lat lng <;>
      simp [wrappedSetCenter, hlat, hlng, hfirst, hd]
  refine ⟨?_, ?_, ?_, ?_⟩
  · rw [hred]
    show (updateWidget s.widgets w _)[w]? = _
    rw [get_updateWidget_self, hw]
    rfl
  · rw [hred]; rfl
  · rw [hred]; rfl
  · rw [hred]; rfl

/-- Witness for the amended C3: on a fresh page, the very first call — even
with the default coordinates — is passed through verbatim. -/
theorem C3_first_call_passthrough_witness :
    getLatOf (some (mkLatLng 37.566826 126.9786567)) = some 37.566826 ∧
      ((wrappedSetCenter ⟨none, true, [⟨none, true⟩], []⟩ 0
            (some (mkLatLng 37.566826 126.9786567))).widgets[0]? =
          some ⟨some (mkLatLng 37.566826 126.9786567), true⟩ ∧
        (wrappedSetCenter ⟨none, true, [⟨none, true⟩], []⟩ 0
            (some (mkLatLng 37.566826 126.9786567))).trace =
          MapEvent.origCall 0 (some (mkLatLng 37.566826 126.9786567)) ::
            MapEvent.wrappedCall 0 (some (mkLatLng 37.566826 126.9786567)) :: [] ∧
        (wrappedSetCenter ⟨none, true, [⟨none, true⟩], []⟩ 0
            (some (mkLatLng 37.566826 126.9786567))).isFirstMapLoad = false ∧
        (wrappedSetCenter ⟨none, true, [⟨none, true⟩], []⟩ 0
            (some (mkLatLng 37.566826 126.9786567))).savedMapCenter =
          (if isDefaultCoords 37.566826 126.9786567 then none
            else some ⟨37.566826, 126.9786567⟩)) :=
  ⟨rfl,
    C3_first_call_passthrough ⟨none, true, [⟨none, true⟩], []⟩ 0
      (some (mkLatLng 37.566826 126.9786567)) 37.566826 126.9786567
      ⟨none, true⟩ rfl rfl rfl rfl⟩

/-- C4: Legitimate update propagation.  After the first call, a center-set
call with non-default extractable coordinates is passed through verbatim to
the original entry point and replaces the saved center with those
coordinates. -/
theorem C4_legitimate_update (s : PageState) (w : Nat) (arg : Option LatLngArg)
    (lat lng : ℚ) (wid : Widget)
    (hfirst : s.isFirstMapLoad = false)
    (hlat : getLatOf arg = some lat) (hlng : getLngOf arg = some lng)
    (hnd : ¬isDefaultCoords lat lng)
    (hw : s.widgets[w]? = some wid) :
    (wrappedSetCenter s w arg).savedMapCenter = some ⟨lat, lng⟩ ∧
      (wrappedSetCenter s w arg).widgets[w]? = some { wid with displayed := arg } ∧
      (wrappedSetCenter s w arg).trace =
        MapEvent.origCall w arg :: MapEvent.wrappedCall w arg :: s.trace := by
  have hred : wrappedSetCenter s w arg =
      origSetCenter
        { s with
          trace := MapEvent.wrappedCall w arg :: s.trace,
          savedMapCenter := some ⟨lat, lng⟩ } w arg := by
    rcases hs : s.savedMapCenter with _ | c <;>
      simp [wrappedSetCenter, hlat, hlng, hfirst, hs, hnd]
  refine ⟨?_, ?_, ?_⟩
  · rw [hred, origSetCenter_saved]
  · rw [hred]
    show (updateWidget s.widgets w _)[w]? = _
    rw [get_updateWidget_self, hw]
    rfl
  · rw [hred]; rfl

/-- Witness for C4 with the store previously holding another value. -/
theorem C4_legitimate_update_witness :
    ¬isDefaultCoords 37.123 127.456 ∧
      ((wrappedSetCenter ⟨some ⟨37.5, 127⟩, false, [⟨none, true⟩], []⟩ 0
            (some (mkLatLng 37.123 127.456))).savedMapCenter =
          some ⟨37.123, 127.456⟩ ∧
        (wrappedSetCenter ⟨some ⟨37.5, 127⟩, false, [⟨none, true⟩], []⟩ 0
            (some (mkLatLng 37.123 127.456))).widgets[0]? =
          some ⟨some (mkLatLng 37.123 127.456), true⟩ ∧
        (wrappedSetCenter ⟨some ⟨37.5, 127⟩, false, [⟨none, true⟩], []⟩ 0
            (some (mkLatLng 37.123 127.456))).trace =
          MapEvent.origCall 0 (some (mkLatLng 37.123 127.456)) ::
            MapEvent.wrappedCall 0 (some (mkLatLng 37.123 127.456)) :: []) :=
  ⟨by norm_num [isDefaultCoords, near, centerEps, DEFAULT_SEOUL_LAT, DEFAULT_SEOUL_LNG, abs_lt],
    C4_legitimate_update ⟨some ⟨37.5, 127⟩, false, [⟨none, true⟩], []⟩ 0
      (some (mkLatLng 37.123 127.456)) 37.123 127.456 ⟨none, true⟩ rfl rfl rfl
      (by norm_num [isDefaultCoords, near, centerEps, DEFAULT_SEOUL_LAT, DEFAULT_SEOUL_LNG, abs_lt]) rfl⟩

/-- C5: Empty-store default blocking.  After the first call, a center-set
call with default coordinates while the store is empty changes nothing except
logging the wrapped invocation: the original entry point is not called, the
widgets are untouched and the store stays empty. -/
theorem C5_empty_store_block (s : PageState) (w : Nat) (arg : Option LatLngArg)
    (lat lng : ℚ)
    (hfirst : s.isFirstMapLoad = false)
    (hsaved : s.savedMapCenter = none)
    (hlat : getLatOf arg = some lat) (hlng : getLngOf arg = some lng)
    (hdef : isDefaultCoords lat lng) :
    wrappedSetCenter s w arg =
      { s with trace := MapEvent.wrappedCall w arg :: s.trace } := by
  simp [wrappedSetCenter, hlat, hlng, hfirst, hsaved, hdef]

/-- Witness for C5: blocked default call on an empty store, states compared
whole. -/
theorem C5_empty_store_block_witness :
    isDefaultCoords 37.566826 126.9786567 ∧
      wrappedSetCenter ⟨none, false, [⟨none, true⟩], []⟩ 0
          (some (mkLatLng 37.566826 126.9786567)) =
        ⟨none, false, [⟨none, true⟩],
          [MapEvent.wrappedCall 0 (some (mkLatLng 37.566826 126.9786567))]⟩ :=
  ⟨by norm_num [isDefaultCoords, near, centerEps, DEFAULT_SEOUL_LAT, DEFAULT_SEOUL_LNG, abs_lt],
    C5_empty_store_block ⟨none, false, [⟨none, true⟩], []⟩ 0
      (some (mkLatLng 37.566826 126.9786567)) 37.566826 126.9786567 rfl rfl rfl rfl
      (by norm_num [isDefaultCoords, near, centerEps, DEFAULT_SEOUL_LAT, DEFAULT_SEOUL_LNG, abs_lt])⟩

/-- C2 as frozen is false: `handleLocationUpdate` performs no timestamp
comparison, so a sample with `timestamp = 900` arriving after the store holds
a sample with `timestamp = 1000` *replaces* the store instead of leaving it
unchanged. -/
theorem C2_counterexample :
    (handleLocationUpdate
        (handleLocationUpdate ⟨false, none, 0, false, false, true, ⟨0, 0⟩, []⟩
          (some ⟨some 37.1, some 127.1, some 0, some 5, 1000⟩))
        (some ⟨some 37.2, some 127.2, some 0, some 5, 900⟩)).lastLocation =
      some ⟨some 37.2, some 127.2, some 0, some 5, 900⟩ ∧
      (900 : ℤ) < 1000 ∧
      (⟨some 37.2, some 127.2, some 0, some 5, 900⟩ : LocationData) ≠
        ⟨some 37.1, some 127.1, some 0, some 5, 1000⟩ := by
  refine ⟨(handleLocationUpdate_stores _ _ 37.2 rfl).1, by norm_num, fun h => ?_⟩
  simp only [LocationData.mk.injEq] at h
  exact absurd h.2.2.2.2 (by norm_num)

/-- C2 amended: after each delivery of a valid sample (latitude is a number),
the store equals the sample just delivered — regardless of its timestamp —
and the update counter is incremented; there is no monotonicity check. -/
theorem C2_last_sample_wins (g : GpsState) (d : LocationData) (lat : ℚ)
    (hlat : d.latitude = some lat) :
    (handleLocationUpdate g (some d)).lastLocation = some d ∧
      (handleLocationUpdate g (some d)).updateCount = g.updateCount + 1 ∧
      (handleLocationUpdate g (some d)).isTracking = true :=
  handleLocationUpdate_stores g d lat hlat

/-- Witness for the amended C2 at a concrete state and sample. -/
theorem C2_last_sample_wins_witness :
    (⟨some 37.2, some 127.2, some 0, some 5, 900⟩ : LocationData).latitude =
        some 37.2 ∧
      ((handleLocationUpdate ⟨true, some ⟨some 37.1, some 127.1, some 0, some 5, 1000⟩,
            1, false, false, true, ⟨0, 0⟩, []⟩
          (some ⟨some 37.2, some 127.2, some 0, some 5, 900⟩)).lastLocation =
        some ⟨some 37.2, some 127.2, some 0, some 5, 900⟩ ∧
        (handleLocationUpdate ⟨true, some ⟨some 37.1, some 127.1, some 0, some 5, 1000⟩,
            1, false, false, true, ⟨0, 0⟩, []⟩
          (some ⟨some 37.2, some 127.2, some 0, some 5, 900⟩)).updateCount = 1 + 1 ∧
        (handleLocationUpdate ⟨true, some ⟨some 37.1, some 127.1, some 0, some 5, 1000⟩,
            1, false, false, true, ⟨0, 0⟩, []⟩
          (some ⟨some 37.2, some 127.2, some 0, some 5, 900⟩)).isTracking = true) :=
  ⟨rfl,
    C2_last_sample_wins ⟨true, some ⟨some 37.1, some 127.1, some 0, some 5, 1000⟩,
        1, false, false, true, ⟨0, 0⟩, []⟩
      ⟨some 37.2, some 127.2, some 0, some 5, 900⟩ 37.2 rfl⟩

/-- C6 as frozen is false: a center-set call whose coordinates cannot be
extracted is *passed through* to the original entry point ("invalid
coordinates, allowing", index.tsx lines 1020-1023), not dropped: at a concrete
state, the original entry point is invoked with the invalid argument. -/
theorem C6_counterexample :
    wrappedSetCenter ⟨none, false, [⟨none, true⟩], []⟩ 0
        (some ⟨none, none, none, none⟩) =
      ⟨none, false, [⟨some ⟨none, none, none, none⟩, true⟩],
        [MapEvent.origCall 0 (some ⟨none, none, none, none⟩),
          MapEvent.wrappedCall 0 (some ⟨none, none, none, none⟩)]⟩ ∧
      getLatOf (some ⟨none, none, none, none⟩) = none :=
  ⟨rfl, rfl⟩

/-- C6 amended: a center-set call whose latitude or longitude cannot be
extracted is passed through verbatim to the original entry point, with no
policy state touched; on the receiver side, a sample that is null or whose
latitude is not a number is dropped and the whole GPS state is left
unchanged (the longitude is never validated). -/
theorem C6_invalid_handling (s : PageState) (w : Nat) (arg : Option LatLngArg)
    (g : GpsState) (d : Option LocationData)
    (harg : getLatOf arg = none ∨ getLngOf arg = none)
    (hd : d = none ∨ ∃ data, d = some data ∧ data.latitude = none) :
    wrappedSetCenter s w arg =
        origSetCenter { s with trace := MapEvent.wrappedCall w arg :: s.trace } w arg ∧
      handleLocationUpdate g d = g := by
  constructor
  · rcases h1 : getLatOf arg with _ | lat <;> rcases h2 : getLngOf arg with _ | lng
    · simp [wrappedSetCenter, h1, h2]
    · simp [wrappedSetCenter, h1, h2]
    · simp [wrappedSetCenter, h1, h2]
    · rcases harg with h | h
      · rw [h1] at h; cases h
      · rw [h2] at h; cases h
  · rcases hd with rfl | ⟨data, rfl, hlat⟩
    · rfl
    · simp [handleLocationUpdate, hlat]

/-- Witness for the amended C6: a `setCenter` argument with no extractable
fields at a concrete page state, and a null sample at a concrete GPS state. -/
theorem C6_invalid_handling_witness :
    (getLatOf (some ⟨none, none, none, none⟩) = none ∨
        getLngOf (some ⟨none, none, none, none⟩) = none) ∧
      (wrappedSetCenter ⟨some ⟨37.5, 127⟩, false, [⟨none, true⟩], []⟩ 0
            (some ⟨none, none, none, none⟩) =
          origSetCenter
            ⟨some ⟨37.5, 127⟩, false, [⟨none, true⟩],
              [MapEvent.wrappedCall 0 (some ⟨none, none, none, none⟩)]⟩ 0
            (some ⟨none, none, none, none⟩) ∧
        handleLocationUpdate ⟨false, none, 0, false, false, true, ⟨0, 0⟩, []⟩ none =
          ⟨false, none, 0, false, false, true, ⟨0, 0⟩, []⟩) :=
  ⟨Or.inl rfl,
    C6_invalid_handling ⟨some ⟨37.5, 127⟩, false, [⟨none, true⟩], []⟩ 0
      (some ⟨none, none, none, none⟩) ⟨false, none, 0, false, false, true, ⟨0, 0⟩, []⟩
      none (Or.inl rfl) (Or.inl rfl)⟩

/-- C7: Reconciliation backstop.  If a widget's displayed center was mutated
to the default Seoul coordinates by a path that bypassed the wrapped method,
then one execution of the 1000 ms monitoring tick — whenever the store holds
`c` and the displayed center is at the default but not within epsilon of `c`
— re-centers the widget to `c`: the widget ends displaying `c` and the
original center-mutation entry point is invoked with `c` (directly for
unwrapped widgets; through the pass-through of the wrapped method, which
forwards the non-default stored coordinates, for wrapped ones). -/
theorem C7_reconciliation_backstop (s : PageState) (w : Nat) (wid : Widget)
    (cc : LatLngArg) (lat lng : ℚ) (c : Coords)
    (hw : s.widgets[w]? = some wid) (hd : wid.displayed = some cc)
    (h1 : monGetLat cc = some lat) (h2 : monGetLng cc = some lng)
    (hs : s.savedMapCenter = some c)
    (hdef : isDefaultCoords lat lng) (hns : ¬(near lat c.lat ∧ near lng c.lng)) :
    (monitorTick s).widgets[w]? =
        some { wid with displayed := some (mkLatLng c.lat c.lng) } ∧
      MapEvent.origCall w (some (mkLatLng c.lat c.lng)) ∈ (monitorTick s).trace := by
  have hlen : w < s.widgets.length := by
    rcases List.getElem?_eq_some.mp hw with ⟨h, -⟩
    exact h
  have ht : monitorTick s = (List.range s.widgets.length).foldl monitorWidget s := by
    simp [monitorTick, hs]
  rw [ht]
  exact foldl_range_restores _ s w wid cc lat lng c hw hd h1 h2 hs hdef hns hlen

/-- Witness for C7: one wrapped widget sitting at the default center while the
store holds `(37.5, 127.0)`; after one tick it displays `(37.5, 127.0)`. -/
theorem C7_reconciliation_backstop_witness :
    monGetLat (mkLatLng 37.566826 126.9786567) = some 37.566826 ∧
      isDefaultCoords 37.566826 126.9786567 ∧
      ((monitorTick ⟨some ⟨37.5, 127⟩, false,
            [⟨some (mkLatLng 37.566826 126.9786567), true⟩], []⟩).widgets[0]? =
          some ⟨some (mkLatLng 37.5 127), true⟩ ∧
        MapEvent.origCall 0 (some (mkLatLng 37.5 127)) ∈
          (monitorTick ⟨some ⟨37.5, 127⟩, false,
            [⟨some (mkLatLng 37.566826 126.9786567), true⟩], []⟩).trace) :=
  ⟨by simp [monGetLat, truthyQ, jsOrQ, mkLatLng,
      show (37.566826 : ℚ) ≠ 0 by norm_num],
    by norm_num [isDefaultCoords, near, centerEps, DEFAULT_SEOUL_LAT, DEFAULT_SEOUL_LNG,
      abs_lt],
    C7_reconciliation_backstop
      ⟨some ⟨37.5, 127⟩, false, [⟨some (mkLatLng 37.566826 126.9786567), true⟩], []⟩
      0 ⟨some (mkLatLng 37.566826 126.9786567), true⟩
      (mkLatLng 37.566826 126.9786567) 37.566826 126.9786567 ⟨37.5, 127⟩
      rfl rfl
      (by simp [monGetLat, truthyQ, jsOrQ, mkLatLng,
        show (37.566826 : ℚ) ≠ 0 by norm_num])
      (by simp [monGetLng, truthyQ, jsOrQ, mkLatLng,
        show (126.9786567 : ℚ) ≠ 0 by norm_num])
      rfl
      (by norm_num [isDefaultCoords, near, centerEps, DEFAULT_SEOUL_LAT,
        DEFAULT_SEOUL_LNG, abs_lt])
      (by norm_num [near, centerEps, abs_lt])⟩

/-- C8 as frozen is false: the pass run by the receiver after a successful
replace re-centers only when the sample is more than 50 meters from the
displayed center.  Concretely, with the map displayed at `(37.5, 127.0)` and
an accepted sample at `(37.5, 127.0001)` (about 8.8 meters away), the store is
replaced and `updateMapCenter` runs, but no `setCenter` call is made and the
displayed center is unchanged — and it differs from the sample's position. -/
theorem C8_counterexample :
    (handleLocationUpdate ⟨false, none, 0, true, true, true, ⟨37.5, 127⟩, []⟩
          (some ⟨some 37.5, some 127.0001, some 0, some 5, 1000⟩)).lastLocation =
        some ⟨some 37.5, some 127.0001, some 0, some 5, 1000⟩ ∧
      (handleLocationUpdate ⟨false, none, 0, true, true, true, ⟨37.5, 127⟩, []⟩
          (some ⟨some 37.5, some 127.0001, some 0, some 5, 1000⟩)).mapCenter =
        ⟨37.5, 127⟩ ∧
      (handleLocationUpdate ⟨false, none, 0, true, true, true, ⟨37.5, 127⟩, []⟩
          (some ⟨some 37.5, some 127.0001, some 0, some 5, 1000⟩)).trace =
        [GpsEvent.mapUpdatePass] ∧
      (⟨37.5, 127⟩ : Coords) ≠ ⟨37.5, 127.0001⟩ := by
  have hnd : ¬(50 : ℝ) < calculateDistance 37.5 127 37.5 127.0001 :=
    not_lt.mpr calculateDistance_example_le
  have hupd : handleLocationUpdate ⟨false, none, 0, true, true, true, ⟨37.5, 127⟩, []⟩
      (some ⟨some 37.5, some 127.0001, some 0, some 5, 1000⟩) =
      ⟨true, some ⟨some 37.5, some 127.0001, some 0, some 5, 1000⟩, 1, true, true, true,
        ⟨37.5, 127⟩, [GpsEvent.mapUpdatePass]⟩ := by
    simp [handleLocationUpdate, updateMapCenter, hnd]
  rw [hupd]
  refine ⟨rfl, rfl, rfl, fun h => ?_⟩
  simp only [Coords.mk.injEq] at h
  exact absurd h.2 (by norm_num)

/-- C8 amended: after every accepted sample (latitude a number) the handler
replaces the store; when the longitude is also a number it then invokes
`updateMapCenter` exactly once (the forced pass), without waiting for the
periodic tick, and that pass re-centers the map to the sample only when
auto-follow is not disabled, the map and its `getCenter` are present and the
sample is more than 50 meters (haversine) from the displayed center.  When
the longitude is absent or not a number the handler's own log line
(`longitude.toFixed`, line 92) throws right after the store writes, so the
pass is never invoked and the map state is untouched. -/
theorem C8_forced_pass_conditional (g : GpsState) (d : LocationData) (lat : ℚ)
    (hlat : d.latitude = some lat) :
    (handleLocationUpdate g (some d)).lastLocation = some d ∧
      (d.longitude = none →
        handleLocationUpdate g (some d) =
          { g with
            isTracking := true,
            lastLocation := some d,
            updateCount := g.updateCount + 1 }) ∧
      (∀ lng, d.longitude = some lng →
        (handleLocationUpdate g (some d)).trace.count GpsEvent.mapUpdatePass =
            g.trace.count GpsEvent.mapUpdatePass + 1 ∧
          ((handleLocationUpdate g (some d)).mapCenter = g.mapCenter ∨
            (50 < calculateDistance g.mapCenter.lat g.mapCenter.lng lat lng ∧
              (handleLocationUpdate g (some d)).mapCenter = ⟨lat, lng⟩))) := by
  refine ⟨(handleLocationUpdate_stores g d lat hlat).1, fun hlo => ?_, fun lng hlo => ?_⟩
  · simp [handleLocationUpdate, hlat, hlo]
  · have hform : handleLocationUpdate g (some d) =
        updateMapCenter
          { g with
            isTracking := true,
            lastLocation := some d,
            updateCount := g.updateCount + 1 } d := by
      simp [handleLocationUpdate, hlat, hlo]
    rcases updateMapCenter_cases
        { g with
          isTracking := true,
          lastLocation := some d,
          updateCount := g.updateCount + 1 } d with h | ⟨lat2, lng2, hla, hlo2, _, _, _, hdist, h⟩
    · rw [hform, h]
      exact ⟨by simp [List.count_cons], Or.inl rfl⟩
    · have hlat2 : lat2 = lat := by
        rw [hlat] at hla
        exact (Option.some.inj hla).symm
      have hlng2 : lng2 = lng := by
        rw [hlo] at hlo2
        exact (Option.some.inj hlo2).symm
      subst hlat2
      subst hlng2
      rw [hform, h]
      exact ⟨by simp [List.count_cons], Or.inr ⟨hdist, rfl⟩⟩

/-- Witness for the amended C8, on the aborting path: a sample with numeric
latitude but absent longitude, received while the map and auto-follow are all
present — the store is replaced, yet no map-update pass is recorded and the
displayed center is untouched, because the handler throws on its log line. -/
theorem C8_forced_pass_conditional_witness :
    (⟨some 1, none, none, none, 0⟩ : LocationData).latitude = some 1 ∧
      (handleLocationUpdate ⟨false, none, 0, true, true, true, ⟨37.5, 127⟩, []⟩
          (some ⟨some 1, none, none, none, 0⟩)).lastLocation =
        some ⟨some 1, none, none, none, 0⟩ ∧
      handleLocationUpdate ⟨false, none, 0, true, true, true, ⟨37.5, 127⟩, []⟩
          (some ⟨some 1, none, none, none, 0⟩) =
        ⟨true, some ⟨some 1, none, none, none, 0⟩, 1, true, true, true, ⟨37.5, 127⟩, []⟩ :=
  ⟨rfl,
    (C8_forced_pass_conditional ⟨false, none, 0, true, true, true, ⟨37.5, 127⟩, []⟩
      ⟨some 1, none, none, none, 0⟩ 1 rfl).1,
    (C8_forced_pass_conditional ⟨false, none, 0, true, true, true, ⟨37.5, 127⟩, []⟩
      ⟨some 1, none, none, none, 0⟩ 1 rfl).2.1 rfl⟩

/-- C9: Disruption-triggered recheck.  Both wrapped request primitives pass
the call through and schedule exactly one reconciliation pass 100 ms after the
call settles when the target URL matches the category/marker/listing keyword
heuristics, and none otherwise.  (The wrapper code itself is modelled from the
spec; see `wrapFetchCall`.) -/
theorem C9_disruption_recheck (url : String) :
    wrapFetchCall url = wrapXhrCall url ∧
      (wrapFetchCall url).passedThrough = true ∧
      (urlTriggersRecheck url = true → (wrapFetchCall url).scheduledRechecks = [100]) ∧
      (urlTriggersRecheck url = false → (wrapFetchCall url).scheduledRechecks = []) := by
  refine ⟨rfl, rfl, fun h => ?_, fun h => ?_⟩ <;> simp [wrapFetchCall, h]

/-- Witness for C9 on a marker-refresh-looking URL. -/
theorem C9_disruption_recheck_witness :
    urlTriggersRecheck "/api/markers" = true ∧
      (wrapFetchCall "/api/markers").scheduledRechecks = [100] :=
  ⟨by decide, (C9_disruption_recheck "/api/markers").2.2.1 (by decide)⟩

/-- C10: Implicit invariant.  In every reachable state of the injected
script, `window.__savedMapCenter` is either null or holds coordinates that
are not within epsilon of the default Seoul center: every write in the
wrapped `setCenter` is guarded by `!isDefaultCoords`, so the substitutions
performed by the blocking branch and the monitoring loop always re-center to
a non-default coordinate. -/
theorem C10_saved_never_default (s : PageState) (h : PageReachable s) :
    savedNotDefault s := by
  induction h with
  | refl =>
    intro c hc
    cases hc
  | tail hab hbc ih =>
    cases hbc with
    | wrapped w arg => exact wrappedSetCenter_savedNotDefault _ w arg ih
    | orig w arg =>
      intro c hc
      exact ih c hc
    | tick =>
      intro c hc
      rw [monitorTick_saved] at hc
      exact ih c hc
    | create wr d =>
      intro c hc
      exact ih c hc

/-- Witness for C10: a concrete two-step run (create a widget, then a
legitimate non-default center-set) reaching a state with a non-empty store. -/
theorem C10_saved_never_default_witness :
    PageReachable (wrappedSetCenter (addWidget initPage true none) 0
        (some (mkLatLng 37.5 127))) ∧
      ¬isDefaultCoords 37.5 127 :=
  have hre : PageReachable (wrappedSetCenter (addWidget initPage true none) 0
      (some (mkLatLng 37.5 127))) :=
    Relation.ReflTransGen.tail
      (Relation.ReflTransGen.tail Relation.ReflTransGen.refl
        (PageStep.create initPage true none))
      (PageStep.wrapped (addWidget initPage true none) 0 (some (mkLatLng 37.5 127)))
  ⟨hre,
    C10_saved_never_default _ hre ⟨37.5, 127⟩ (by
      have hnd : ¬isDefaultCoords 37.5 127 := by
        norm_num [isDefaultCoords, near, centerEps, DEFAULT_SEOUL_LAT, DEFAULT_SEOUL_LNG,
          abs_lt]
      simp [wrappedSetCenter, addWidget, initPage, origSetCenter, updateWidget,
        getLatOf, getLngOf, mkLatLng, hnd])⟩

end TimeDealing
